import Mathlib

/-!
Shallow embedding of the user-account service in
`src/app/services/user_service.py` and `src/app/utils/nickname_gen.py`.

The data store is a list of `User` records; each service operation is a
function from a store (plus its inputs) to a result together with the
store after commit.  External collaborators that are not part of this
repository snapshot (password hashing, verification-token generation,
input validation, the ORM model defaults) are modelled from the spec and
marked as such in their doc comments.  Randomness and the clock are
passed in as explicit parameters.
-/

/-- Role enumeration of `app.models.user_model.UserRole` as used by the
service code: `ADMIN`, `AUTHENTICATED`, `ANONYMOUS`. -/
inductive UserRole where
  | ADMIN
  | AUTHENTICATED
  | ANONYMOUS
deriving DecidableEq, Repr

/-- String rendering of a role, as produced by `cast(User.role, String)`
in the query code. -/
def roleToString : UserRole → String
  | .ADMIN => "ADMIN"
  | .AUTHENTICATED => "AUTHENTICATED"
  | .ANONYMOUS => "ANONYMOUS"

/-- User record, following the fields of the `User` model that
`user_service.py` reads and writes.  Identifiers are modelled as `Nat`,
timestamps as `Nat`, nullable columns as `Option`. -/
structure User where
  id : Nat
  email : String
  nickname : String
  hashed_password : String
  role : UserRole
  email_verified : Bool
  verification_token : Option String
  failed_login_attempts : Nat
  is_locked : Bool
  first_name : Option String
  last_name : Option String
  status : String
  registration_date : Nat
  last_login_at : Option Nat
deriving DecidableEq, Repr

/-- The record store backing the service: the rows of the user table. -/
structure Store where
  users : List User
deriving DecidableEq, Repr

/-- Lookup by email, as in `UserService.get_by_email` /
`_fetch_user(session, email=email)`: first row matching the filter. -/
def get_by_email (st : Store) (email : String) : Option User :=
  st.users.find? (fun u => u.email == email)

/-- Lookup by id, as in `UserService.get_by_id` /
`_fetch_user(session, id=user_id)`. -/
def get_by_id (st : Store) (i : Nat) : Option User :=
  st.users.find? (fun u => u.id == i)

/-- Commit of a mutated ORM object: the row whose id matches the object
is overwritten with the object (`session.add(user); session.commit()`). -/
def Store.setUser (st : Store) (u : User) : Store :=
  { users := st.users.map (fun v => if v.id == u.id then u else v) }

/-- Modelled from the spec: the password-hashing capability
(`hash_password` in `app/utils/security`, which is not part of this
snapshot).  A deterministic, collision-free encoding of the password. -/
def hash_password (p : String) : String :=
  "$hash$" ++ p

/-- Modelled from the spec: the password-verification capability
(`verify_password` in `app/utils/security`): true exactly when the
stored hash is the hash of the supplied password. -/
def verify_password (p h : String) : Bool :=
  h == hash_password p

/-- Modelled from the spec: the random verification-token generator
(`generate_verification_token` in `app/utils/security`), producing a
fresh non-empty token; the random seed is an explicit parameter. -/
def generate_verification_token (seed : Nat) : String :=
  "vtok" ++ toString seed

/-- Modelled from the spec: input-shape validation (pydantic `EmailStr`
in the `UserLogin` / `UserCreate` schemas, external collaborators): an
email is accepted when it contains an `@`. -/
def validEmail (e : String) : Bool :=
  e.toList.any (fun c => c == '@')

/-- Modelled from the spec: defaults of a freshly constructed `User`
record (`app/models/user_model.py` is not part of this snapshot): a new
registration starts unverified, with no verification token, failed-login
counter zero and unlocked. -/
def mkNewUser (i : Nat) (email hashed nickname : String) : User :=
  { id := i, email := email, nickname := nickname, hashed_password := hashed,
    role := .ANONYMOUS, email_verified := false, verification_token := none,
    failed_login_attempts := 0, is_locked := false,
    first_name := none, last_name := none, status := "",
    registration_date := 0, last_login_at := none }

/-- Substring test on character lists: `needle` occurs contiguously in
`haystack`.  Models SQL / SQLAlchemy `contains` (i.e. `LIKE x`). -/
def isPrefixList : List Char → List Char → Bool
  | [], _ => true
  | _ :: _, [] => false
  | c :: cs, d :: ds => c == d && isPrefixList cs ds

/-- See `isPrefixList`: occurrence of `sub` anywhere in `s`. -/
def hasSub : List Char → List Char → Bool
  | [], sub => isPrefixList sub []
  | c :: s, sub => isPrefixList sub (c :: s) || hasSub s sub

/-- String-level substring test used by the `contains` filters. -/
def strContains (s sub : String) : Bool :=
  hasSub s.toList sub.toList

/-- A `contains` filter applied to a nullable column: a NULL column
matches nothing. -/
def optContains (o : Option String) (sub : String) : Bool :=
  match o with
  | none => false
  | some s => strContains s sub

/-- An equality filter applied to a nullable column: a NULL column
matches nothing. -/
def optEq (o : Option String) (x : String) : Bool :=
  match o with
  | none => false
  | some s => s == x

/-- Python truthiness of an optional string filter: the clause is only
applied when the filter is present and non-empty (`if first_name:`). -/
def applyOptS (o : Option String) (p : String → Bool) : Bool :=
  match o with
  | none => true
  | some s => if s == "" then true else p s

/-- An optional date filter; `datetime` values are always truthy. -/
def applyOptN (o : Option Nat) (p : Nat → Bool) : Bool :=
  match o with
  | none => true
  | some d => p d

/-- Row predicate of `UserService.list_users`: substring match on first
name, last name, email and (string-cast) role; equality on status; lower
bound on registration date. -/
def listPred (fn ln em rl stt : Option String) (rd : Option Nat) (u : User) : Bool :=
  applyOptS fn (fun s => optContains u.first_name s) &&
  applyOptS ln (fun s => optContains u.last_name s) &&
  applyOptS em (fun s => strContains u.email s) &&
  applyOptS rl (fun s => strContains (roleToString u.role) s) &&
  applyOptS stt (fun s => u.status == s) &&
  applyOptN rd (fun d => d ≤ u.registration_date)

/-- `UserService.list_users`: filter, then apply offset `skip` and
`limit` (SQL applies WHERE before OFFSET / LIMIT). -/
def list_users (st : Store) (skip limit : Nat)
    (fn ln em rl stt : Option String) (rd : Option Nat) : List User :=
  ((st.users.filter (listPred fn ln em rl stt rd)).drop skip).take limit

/-- Free-text search clause of `UserService.count`: if the search string
parses as an integer it additionally matches on id equality; otherwise
substring match across email, role, first and last name. -/
def searchPred (s : String) (u : User) : Bool :=
  match s.toInt? with
  | some n =>
      ((u.id : Int) == n) || strContains u.email s ||
      strContains (roleToString u.role) s ||
      optContains u.first_name s || optContains u.last_name s
  | none =>
      strContains u.email s || strContains (roleToString u.role) s ||
      optContains u.first_name s || optContains u.last_name s

/-- Row predicate of `UserService.count`: optional free-text search,
then exact equality on first name, last name, email and role; equality
on status; lower bound on registration date. -/
def countPred (search fn ln em rl stt : Option String) (rd : Option Nat) (u : User) : Bool :=
  applyOptS search (fun s => searchPred s u) &&
  applyOptS fn (fun s => optEq u.first_name s) &&
  applyOptS ln (fun s => optEq u.last_name s) &&
  applyOptS em (fun s => u.email == s) &&
  applyOptS rl (fun s => roleToString u.role == s) &&
  applyOptS stt (fun s => u.status == s) &&
  applyOptN rd (fun d => d ≤ u.registration_date)

/-- `UserService.count`: number of rows matching the filters. -/
def count (st : Store) (search fn ln em rl stt : Option String) (rd : Option Nat) : Nat :=
  (st.users.filter (countPred search fn ln em rl stt rd)).length

/-- `UserService.login_user`.  `N` is `settings.max_login_attempts`,
`now` the current time.  Validation failure, unknown email, an
unverified or locked account, all return no session; a wrong password on
a verified unlocked account increments the failed-login counter and
locks once it reaches `N`; a correct password resets the counter and
stamps the login time. -/
def login_user (N now : Nat) (st : Store) (email password : String) :
    Option User × Store :=
  if validEmail email then
    match get_by_email st email with
    | none => (none, st)
    | some user =>
      if user.email_verified = false then (none, st)
      else if user.is_locked then (none, st)
      else if verify_password password user.hashed_password then
        let u' := { user with failed_login_attempts := 0, last_login_at := some now }
        (some u', st.setUser u')
      else
        let attempts := user.failed_login_attempts + 1
        let u' := { user with
          failed_login_attempts := attempts,
          is_locked := if N ≤ attempts then true else user.is_locked }
        (none, st.setUser u')
  else (none, st)

/-- `UserService.is_account_locked`: unknown email reports not locked. -/
def is_account_locked (st : Store) (email : String) : Bool :=
  match get_by_email st email with
  | none => false
  | some u => u.is_locked

/-- `UserService.reset_password`: re-hash and store the new password,
reset the failed-login counter, unlock; false when the id is unknown. -/
def reset_password (st : Store) (i : Nat) (new_password : String) : Bool × Store :=
  let hashed := hash_password new_password
  match get_by_id st i with
  | none => (false, st)
  | some user =>
      let u' := { user with
        hashed_password := hashed,
        failed_login_attempts := 0,
        is_locked := false }
      (true, st.setUser u')

/-- `UserService.verify_email_with_token`: false when the id is unknown
or the supplied token differs from the stored one; on match, mark
verified, clear the token, promote to AUTHENTICATED. -/
def verify_email_with_token (st : Store) (i : Nat) (token : String) : Bool × Store :=
  match get_by_id st i with
  | none => (false, st)
  | some user =>
      if user.verification_token == some token then
        let u' := { user with
          email_verified := true,
          verification_token := none,
          role := .AUTHENTICATED }
        (true, st.setUser u')
      else (false, st)

/-- `UserService.unlock_user_account`: clear the locked flag and the
failed-login counter when the account exists and is locked; false
otherwise. -/
def unlock_user_account (st : Store) (i : Nat) : Bool × Store :=
  match get_by_id st i with
  | none => (false, st)
  | some user =>
      if user.is_locked then
        let u' := { user with
          is_locked := false,
          failed_login_attempts := 0 }
        (true, st.setUser u')
      else (false, st)

/-- `UserService.create`: validate the input shape, reject a duplicate
email, hash the password, attach a generated nickname; the first-ever
user becomes ADMIN and verified, any later user ANONYMOUS with a fresh
verification token; then insert.  `newId` stands for the id the store
assigns, `tokenSeed` for the randomness of the token generator. -/
def create (st : Store) (newId : Nat) (email password nickname : String)
    (tokenSeed : Nat) : Option User × Store :=
  if validEmail email then
    match get_by_email st email with
    | some _ => (none, st)
    | none =>
      let base := mkNewUser newId email (hash_password password) nickname
      let u :=
        if count st none none none none none none none == 0 then
          { base with role := .ADMIN, email_verified := true }
        else
          { base with role := .ANONYMOUS,
                      verification_token := some (generate_verification_token tokenSeed) }
      (some u, { users := st.users ++ [u] })
  else (none, st)

/-- Mutating operations of the account state machine, for reachability
statements. -/
inductive Op where
  | login (email password : String) (now : Nat)
  | resetPassword (i : Nat) (newPassword : String)
  | verifyEmail (i : Nat) (token : String)
  | unlock (i : Nat)
deriving DecidableEq, Repr

/-- Effect of one operation on the store (`N` is the configured
maximum of failed login attempts). -/
def applyOp (N : Nat) (st : Store) : Op → Store
  | .login e p now => (login_user N now st e p).2
  | .resetPassword i pw => (reset_password st i pw).2
  | .verifyEmail i t => (verify_email_with_token st i t).2
  | .unlock i => (unlock_user_account st i).2

/-- Effect of a sequence of operations, applied left to right. -/
def applyOps (N : Nat) (st : Store) : List Op → Store
  | [] => st
  | op :: ops => applyOps N (applyOp N st op) ops

/-- Adjective pool of `generate_nickname`. -/
def adjectives : List String :=
  ["clever", "jolly", "brave", "sly", "gentle"]

/-- Animal pool of `generate_nickname`. -/
def animals : List String :=
  ["panda", "fox", "raccoon", "koala", "lion"]

/-- Lowercase hexadecimal digits, the alphabet of `uuid4().hex`: the
characters 0-9 followed by a-f. -/
def hexDigitsList : List Char :=
  (List.range 16).map (fun n => Char.ofNat (if n < 10 then 48 + n else 87 + n))

/-- Hexadecimal digit of a nibble value. -/
def hexDigit (n : Nat) : Char :=
  hexDigitsList.getD (n % 16) '0'

/-- The 32 lowercase hex characters of `uuid.uuid4().hex`, with the
random 128-bit value `u` passed in explicitly. -/
def uuid4Hex (u : Nat) : List Char :=
  (List.range 32).map (fun i => hexDigit (u / 16 ^ (31 - i)))

/-- `generate_nickname` from `app/utils/nickname_gen.py`:
adjective, underscore, animal, underscore, first six characters of a
random uuid in hex.  The outcomes of `random.choice` are modelled by the
indices `a`, `b` (taken modulo the pool size) and the uuid by `u`. -/
def generate_nickname (a b u : Nat) : String :=
  adjectives.getD (a % 5) "" ++ "_" ++ animals.getD (b % 5) "" ++ "_" ++
    String.mk ((uuid4Hex u).take 6)

/-! Helper lemmas about lookup and commit on the store. -/

/-- Predicate value carried by a successful `find?` by id. -/
theorem find_id_eq (l : List User) (i : Nat) (u : User)
    (hf : l.find? (fun v => v.id == i) = some u) : u.id = i := by
  have := List.find?_some hf
  simpa using this

/-- Predicate value carried by a successful `find?` by email. -/
theorem find_email_eq (l : List User) (e : String) (u : User)
    (hf : l.find? (fun v => v.email == e) = some u) : u.email = e := by
  have := List.find?_some hf
  simpa using this

/-- After overwriting the row found by id, lookup by the same id returns
the new row. -/
theorem find_id_setUser (l : List User) (i : Nat) (u u' : User)
    (hf : l.find? (fun v => v.id == i) = some u) (hid : u'.id = u.id) :
    (l.map (fun v => if v.id == u'.id then u' else v)).find? (fun v => v.id == i)
      = some u' := by
  have hui : u.id = i := find_id_eq l i u hf
  induction l with
  | nil => simp at hf
  | cons v l ih =>
    simp only [List.map_cons]
    by_cases hv : v.id = i
    · have h1 : (fun w : User => w.id == i) v = true := by simp [hv]
      rw [@List.find?_cons_of_pos User (fun w => w.id == i) v l h1] at hf
      have huv : v = u := by injection hf
      have hcond : (v.id == u'.id) = true := by simp [huv, hid]
      rw [if_pos hcond]
      exact @List.find?_cons_of_pos User (fun w => w.id == i) u' _ (by simp [hid, hui])
    · have h1 : ¬ ((fun w : User => w.id == i) v = true) := by simp [hv]
      rw [@List.find?_cons_of_neg User (fun w => w.id == i) v l h1] at hf
      by_cases hvu : v.id = u'.id
      · exact absurd (by rw [hvu, hid, hui]) hv
      · have hcond : ¬ ((v.id == u'.id) = true) := by simp [hvu]
        rw [if_neg hcond]
        rw [@List.find?_cons_of_neg User (fun w => w.id == i) v _ h1]
        exact ih hf

/-- After overwriting (by id) the row found by email, lookup by the same
email returns the new row, provided ids are unique and the overwrite
keeps id and email. -/
theorem find_email_setUser (l : List User) (e : String) (u u' : User)
    (hids : (l.map (fun v => v.id)).Nodup)
    (hf : l.find? (fun v => v.email == e) = some u)
    (hid : u'.id = u.id) (hem : u'.email = u.email) :
    (l.map (fun v => if v.id == u'.id then u' else v)).find? (fun v => v.email == e)
      = some u' := by
  have hue : u.email = e := find_email_eq l e u hf
  induction l with
  | nil => simp at hf
  | cons v l ih =>
    simp only [List.map_cons]
    have hnd := hids
    rw [List.map_cons, List.nodup_cons] at hnd
    obtain ⟨hvnot, hltl⟩ := hnd
    by_cases hv : v.email = e
    · have h1 : (fun w : User => w.email == e) v = true := by simp [hv]
      rw [@List.find?_cons_of_pos User (fun w => w.email == e) v l h1] at hf
      have huv : v = u := by injection hf
      have hcond : (v.id == u'.id) = true := by simp [huv, hid]
      rw [if_pos hcond]
      exact @List.find?_cons_of_pos User (fun w => w.email == e) u' _
        (by simp [hem, hue])
    · have h1 : ¬ ((fun w : User => w.email == e) v = true) := by simp [hv]
      rw [@List.find?_cons_of_neg User (fun w => w.email == e) v l h1] at hf
      have humem : u ∈ l := List.mem_of_find?_eq_some hf
      have hvid : ¬ (v.id = u'.id) := by
        intro hcontra
        exact hvnot (by
          rw [hcontra, hid]
          exact List.mem_map_of_mem (fun w => w.id) humem)
      have hcond : ¬ ((v.id == u'.id) = true) := by simp [hvid]
      rw [if_neg hcond]
      rw [@List.find?_cons_of_neg User (fun w => w.email == e) v _ h1]
      exact ih hltl hf

/-- When emails are unique, a member is exactly what lookup by its email
returns. -/
theorem find_email_of_mem (l : List User) (u : User)
    (hems : (l.map (fun v => v.email)).Nodup) (hu : u ∈ l) :
    l.find? (fun v => v.email == u.email) = some u := by
  induction l with
  | nil => simp at hu
  | cons v l ih =>
    have hnd := hems
    rw [List.map_cons, List.nodup_cons] at hnd
    obtain ⟨hvnot, hltl⟩ := hnd
    rcases List.mem_cons.mp hu with h | h
    · subst h
      exact @List.find?_cons_of_pos User (fun w => w.email == u.email) u l (by simp)
    · have hv : ¬ (v.email = u.email) := by
        intro hcontra
        exact hvnot (by
          rw [hcontra]
          exact List.mem_map_of_mem (fun w => w.email) h)
      have h1 : ¬ ((fun w : User => w.email == u.email) v = true) := by simp [hv]
      rw [@List.find?_cons_of_neg User (fun w => w.email == u.email) v l h1]
      exact ih hltl h

/-- With no filters, `count` is the number of rows, as used by `create`
to detect the first-ever registration. -/
theorem count_nofilters (st : Store) :
    count st none none none none none none none = st.users.length := by
  unfold count
  have h : st.users.filter (countPred none none none none none none none)
      = st.users := by
    apply List.filter_eq_self.mpr
    intro a _
    rfl
  rw [h]

/-- The modelled verifier accepts the modelled hash of the password. -/
theorem verify_hash_self (p : String) :
    verify_password p (hash_password p) = true := by
  simp [verify_password]

/-- The modelled verification token is never empty. -/
theorem gvt_ne_empty (seed : Nat) : generate_verification_token seed ≠ "" := by
  intro h
  have hlen := congrArg String.length h
  rw [generate_verification_token, String.length_append] at hlen
  simp at hlen
  exact absurd hlen.1 (by decide)

/-- Characterization of a successful `create`: the returned record is
the new user, ADMIN and verified when the store was empty, otherwise
ANONYMOUS with a fresh token. -/
theorem create_some_char (st : Store) (newId : Nat)
    (email password nickname : String) (tokenSeed : Nat) (u : User)
    (h : (create st newId email password nickname tokenSeed).1 = some u) :
    u = (if st.users.length == 0 then
          { mkNewUser newId email (hash_password password) nickname with
            role := UserRole.ADMIN, email_verified := true }
         else
          { mkNewUser newId email (hash_password password) nickname with
            role := UserRole.ANONYMOUS,
            verification_token := some (generate_verification_token tokenSeed) }) := by
  rw [create] at h
  by_cases hval : validEmail email = true
  · rw [if_pos hval] at h
    cases hge : get_by_email st email with
    | some w =>
      rw [hge] at h
      simp at h
    | none =>
      rw [hge] at h
      rw [count_nofilters] at h
      simp only at h
      exact (Option.some_injective _ h).symm
  · rw [if_neg hval] at h
    simp at h

/-- Claim C2: a successful create yields, on a previously empty store, a
record with role ADMIN, email verified and no verification token, and on
a non-empty store a record with role ANONYMOUS, unverified, carrying a
non-empty verification token. -/
theorem claim_C2_create_first_admin (st : Store) (newId : Nat)
    (email password nickname : String) (tokenSeed : Nat) (u : User)
    (h : (create st newId email password nickname tokenSeed).1 = some u) :
    (st.users = [] →
      u.role = UserRole.ADMIN ∧ u.email_verified = true ∧
      u.verification_token = none)
    ∧ (st.users ≠ [] →
      u.role = UserRole.ANONYMOUS ∧ u.email_verified = false ∧
      ∃ t, u.verification_token = some t ∧ t ≠ "") := by
  have hu := create_some_char st newId email password nickname tokenSeed u h
  constructor
  · intro hempty
    have hz : (st.users.length == 0) = true := by
      rw [hempty]
      rfl
    rw [hz, if_pos rfl] at hu
    subst hu
    exact ⟨rfl, rfl, rfl⟩
  · intro hne
    have hz : (st.users.length == 0) = false := by
      rw [beq_eq_false_iff_ne]
      intro hcontra
      exact hne (List.length_eq_zero.mp hcontra)
    rw [hz] at hu
    simp only [Bool.false_eq_true, if_false] at hu
    subst hu
    exact ⟨rfl, rfl, generate_verification_token tokenSeed, rfl,
      gvt_ne_empty tokenSeed⟩

/-- Claim C6: create with an email already present in the store returns
no record and leaves the store unchanged. -/
theorem claim_C6_create_duplicate_email (st : Store) (newId : Nat)
    (email password nickname : String) (tokenSeed : Nat)
    (h : ∃ w ∈ st.users, w.email = email) :
    create st newId email password nickname tokenSeed = (none, st) := by
  obtain ⟨w, hw, hwe⟩ := h
  have hsome : (st.users.find? (fun v => v.email == email)).isSome := by
    rw [List.find?_isSome]
    exact ⟨w, hw, by simp [hwe]⟩
  obtain ⟨u, hu⟩ := Option.isSome_iff_exists.mp hsome
  have hge : get_by_email st email = some u := hu
  rw [create, hge]
  simp only
  split_ifs <;> rfl

/-- Claim C4: login on a locked or unverified stored account returns no
session for every supplied password, including the correct one. -/
theorem claim_C4_login_locked_or_unverified
    (N now : Nat) (st : Store) (email password : String) (u : User)
    (hfind : get_by_email st email = some u)
    (h : u.is_locked = true ∨ u.email_verified = false) :
    (login_user N now st email password).1 = none := by
  simp only [login_user, hfind]
  split_ifs with h1 h2 h3 h4 <;>
    first
    | rfl
    | exact h.elim (fun hl => absurd hl h3) (fun hv => absurd hv h2)

/-- Claim C9: when login fails because the email is unknown or the
account is unverified or locked, the result is no session and the store
is completely unchanged. -/
theorem claim_C9_login_failure_no_mutation
    (N now : Nat) (st : Store) (email password : String)
    (h : get_by_email st email = none ∨
      ∃ u, get_by_email st email = some u ∧
        (u.email_verified = false ∨ u.is_locked = true)) :
    login_user N now st email password = (none, st) := by
  rcases h with hnone | ⟨u, hfind, hu⟩
  · simp only [login_user, hnone]
    split_ifs <;> rfl
  · simp only [login_user, hfind]
    split_ifs with h1 h2 h3 h4 <;>
      first
      | rfl
      | exact hu.elim (fun hv => absurd hv h2) (fun hl => absurd hl h3)

/-- Email verification on an unknown id: no result, store unchanged. -/
theorem verify_none (st : Store) (i : Nat) (token : String)
    (hge : get_by_id st i = none) :
    verify_email_with_token st i token = (false, st) := by
  rw [verify_email_with_token, hge]

/-- Email verification with a mismatched token: no result, store
unchanged. -/
theorem verify_mismatch (st : Store) (i : Nat) (token : String) (u : User)
    (hge : get_by_id st i = some u)
    (htok : ¬ (u.verification_token = some token)) :
    verify_email_with_token st i token = (false, st) := by
  rw [verify_email_with_token, hge]
  simp [htok]

/-- Email verification with the matching token: success, and the row is
overwritten with the verified, token-cleared, promoted record. -/
theorem verify_match (st : Store) (i : Nat) (token : String) (u : User)
    (hge : get_by_id st i = some u)
    (htok : u.verification_token = some token) :
    verify_email_with_token st i token =
      (true, st.setUser { u with
        email_verified := true, verification_token := none,
        role := UserRole.AUTHENTICATED }) := by
  rw [verify_email_with_token, hge]
  simp [htok]

/-- Claim C3: verifyEmail returns true exactly when the user exists and
the supplied token equals the stored token; on success the resulting
record is verified with a cleared token and role AUTHENTICATED, and a
repeated call with the same token then fails. -/
theorem claim_C3_verify_email (st : Store) (i : Nat) (token : String) :
    ((verify_email_with_token st i token).1 = true ↔
      ∃ u, get_by_id st i = some u ∧ u.verification_token = some token)
    ∧ ((verify_email_with_token st i token).1 = true →
      (∃ u', get_by_id (verify_email_with_token st i token).2 i = some u' ∧
        u'.email_verified = true ∧ u'.verification_token = none ∧
        u'.role = UserRole.AUTHENTICATED)
      ∧ (verify_email_with_token
          (verify_email_with_token st i token).2 i token).1 = false) := by
  cases hge : get_by_id st i with
  | none =>
    rw [verify_none st i token hge]
    constructor
    · constructor
      · intro hfalse
        simp at hfalse
      · rintro ⟨u, hu, -⟩
        simp at hu
    · intro hfalse
      simp at hfalse
  | some u =>
    by_cases htok : u.verification_token = some token
    · rw [verify_match st i token u hge htok]
      have hpost : get_by_id
          (st.setUser { u with
            email_verified := true, verification_token := none,
            role := UserRole.AUTHENTICATED }) i =
          some { u with
            email_verified := true, verification_token := none,
            role := UserRole.AUTHENTICATED } := by
        show (st.users.map _).find? _ = _
        exact find_id_setUser st.users i u _ hge rfl
      constructor
      · constructor
        · intro _
          exact ⟨u, rfl, htok⟩
        · intro _
          rfl
      · intro _
        refine ⟨⟨_, hpost, rfl, rfl, rfl⟩, ?_⟩
        rw [verify_mismatch _ i token _ hpost (by simp)]
    · rw [verify_mismatch st i token u hge htok]
      constructor
      · constructor
        · intro hfalse
          simp at hfalse
        · rintro ⟨w, hw, hwt⟩
          have : w = u := by
            injection hw with h1
            exact h1.symm
          rw [this] at hwt
          exact absurd hwt htok
      · intro hfalse
        simp at hfalse

/-- Wrong-password branch of login on a known, verified, unlocked
account: no session, counter incremented, locked once the counter
reaches the maximum. -/
theorem login_wrong_password (N now : Nat) (st : Store) (email password : String) (u : User)
    (hval : validEmail email = true)
    (hfind : get_by_email st email = some u)
    (hver : u.email_verified = true)
    (hlock : u.is_locked = false)
    (hpw : verify_password password u.hashed_password = false) :
    login_user N now st email password =
      (none, st.setUser { u with
        failed_login_attempts := u.failed_login_attempts + 1,
        is_locked := if N ≤ u.failed_login_attempts + 1 then true else u.is_locked }) := by
  rw [login_user, hfind, if_pos hval]
  simp only [hver, hlock, hpw]
  simp

/-- Correct-password branch of login on a known, verified, unlocked
account: session returned, counter reset, login time stamped. -/
theorem login_right_password (N now : Nat) (st : Store) (email password : String) (u : User)
    (hval : validEmail email = true)
    (hfind : get_by_email st email = some u)
    (hver : u.email_verified = true)
    (hlock : u.is_locked = false)
    (hpw : verify_password password u.hashed_password = true) :
    login_user N now st email password =
      (some { u with failed_login_attempts := 0, last_login_at := some now },
       st.setUser { u with failed_login_attempts := 0, last_login_at := some now }) := by
  rw [login_user, hfind, if_pos hval]
  simp only [hver, hlock, hpw]
  simp

/-- Claim C1: on a known, verified, unlocked account with counter c, a
wrong password increments the counter to c + 1 and sets the locked flag
exactly when c + 1 reaches the configured maximum N, while a correct
password resets the counter to 0 and leaves the locked flag unset. -/
theorem claim_C1_login_counter_and_lock
    (N now : Nat) (st : Store) (email password : String) (u : User)
    (hval : validEmail email = true)
    (hids : (st.users.map (fun v => v.id)).Nodup)
    (hfind : get_by_email st email = some u)
    (hver : u.email_verified = true)
    (hlock : u.is_locked = false) :
    (verify_password password u.hashed_password = false →
      (login_user N now st email password).1 = none ∧
      ∃ u', get_by_email (login_user N now st email password).2 email = some u' ∧
        u'.failed_login_attempts = u.failed_login_attempts + 1 ∧
        (u'.is_locked = true ↔ N ≤ u.failed_login_attempts + 1))
    ∧ (verify_password password u.hashed_password = true →
      ∃ u', (login_user N now st email password).1 = some u' ∧
        get_by_email (login_user N now st email password).2 email = some u' ∧
        u'.failed_login_attempts = 0 ∧ u'.is_locked = false) := by
  constructor
  · intro hpw
    rw [login_wrong_password N now st email password u hval hfind hver hlock hpw]
    refine ⟨rfl, { u with
        failed_login_attempts := u.failed_login_attempts + 1,
        is_locked := if N ≤ u.failed_login_attempts + 1 then true
          else u.is_locked }, ?_, rfl, ?_⟩
    · exact find_email_setUser st.users email u _ hids hfind rfl rfl
    · show (if N ≤ u.failed_login_attempts + 1 then true else u.is_locked) = true ↔ _
      by_cases hN : N ≤ u.failed_login_attempts + 1
      · rw [if_pos hN]
        simp [hN]
      · rw [if_neg hN]
        simp [hlock, hN]
  · intro hpw
    rw [login_right_password N now st email password u hval hfind hver hlock hpw]
    refine ⟨{ u with failed_login_attempts := 0, last_login_at := some now },
      rfl, ?_, rfl, ?_⟩
    · exact find_email_setUser st.users email u _ hids hfind rfl rfl
    · show u.is_locked = false
      exact hlock

/-- Unverified account used to exercise password reset followed by
login. -/
def cexResetUser : User :=
  { id := 1, email := "bob@example.com", nickname := "bn",
    hashed_password := hash_password "old", role := .ANONYMOUS,
    email_verified := false, verification_token := some "t",
    failed_login_attempts := 0, is_locked := false,
    first_name := none, last_name := none, status := "",
    registration_date := 0, last_login_at := none }

/-- Claim C5, counterexample: on an existing but unverified account,
resetPassword returns true, yet the subsequent login with that email and
the new password still returns no session, because login also requires
the email-verified flag. -/
theorem claim_C5_counterexample :
    (reset_password (Store.mk [cexResetUser]) 1 "newpw").1 = true ∧
    (login_user 3 0 (reset_password (Store.mk [cexResetUser]) 1 "newpw").2
      "bob@example.com" "newpw").1 = none := by
  exact ⟨rfl, rfl⟩

/-- Successful-path reduction of `reset_password`. -/
theorem reset_password_found (st : Store) (i : Nat) (newPassword : String) (u : User)
    (hfind : get_by_id st i = some u) :
    reset_password st i newPassword =
      (true, st.setUser { u with
        hashed_password := hash_password newPassword,
        failed_login_attempts := 0, is_locked := false }) := by
  rw [reset_password, hfind]

/-- Claim C5 (amended): for every existing user id, resetPassword
returns true, stores the hash of the new password, zeroes the
failed-login counter and clears the locked flag; and when the account is
email-verified (and its stored email passes login validation), a
subsequent login with that email and the new password succeeds. -/
theorem claim_C5_reset_password
    (N now : Nat) (st : Store) (i : Nat) (newPassword : String) (u : User)
    (hids : (st.users.map (fun v => v.id)).Nodup)
    (hems : (st.users.map (fun v => v.email)).Nodup)
    (hfind : get_by_id st i = some u) :
    (reset_password st i newPassword).1 = true ∧
    (∃ u', get_by_id (reset_password st i newPassword).2 i = some u' ∧
      u'.hashed_password = hash_password newPassword ∧
      u'.failed_login_attempts = 0 ∧ u'.is_locked = false) ∧
    (u.email_verified = true → validEmail u.email = true →
      ∃ w, (login_user N now (reset_password st i newPassword).2
        u.email newPassword).1 = some w) := by
  rw [reset_password_found st i newPassword u hfind]
  have hmem : u ∈ st.users := List.mem_of_find?_eq_some hfind
  have hbyEmail : st.users.find? (fun v => v.email == u.email) = some u :=
    find_email_of_mem st.users u hems hmem
  have hafter : get_by_email
      (st.setUser { u with
        hashed_password := hash_password newPassword,
        failed_login_attempts := 0, is_locked := false }) u.email =
      some { u with
        hashed_password := hash_password newPassword,
        failed_login_attempts := 0, is_locked := false } :=
    find_email_setUser st.users u.email u _ hids hbyEmail rfl rfl
  refine ⟨rfl, ⟨{ u with
      hashed_password := hash_password newPassword,
      failed_login_attempts := 0, is_locked := false }, ?_, rfl, rfl, rfl⟩, ?_⟩
  · exact find_id_setUser st.users i u _ hfind rfl
  · intro hver hval
    refine ⟨{ u with
      hashed_password := hash_password newPassword,
      failed_login_attempts := 0, is_locked := false,
      last_login_at := some now }, ?_⟩
    rw [login_right_password N now _ u.email newPassword _ hval hafter hver rfl
      (verify_hash_self newPassword)]

/-- Row used to exhibit the list / count filter divergence. -/
def cexListUser : User :=
  { id := 2, email := "alice@example.com", nickname := "an",
    hashed_password := "h", role := .ANONYMOUS, email_verified := true,
    verification_token := none, failed_login_attempts := 0,
    is_locked := false, first_name := some "Alice", last_name := none,
    status := "", registration_date := 0, last_login_at := none }

/-- Claim C7, counterexample: under the first-name filter "Ali", list
matches the row with first name "Alice" by substring, while count
requires exact equality and reports zero, so the two operations do not
share filter semantics. -/
theorem claim_C7_counterexample :
    (list_users (Store.mk [cexListUser]) 0 10
      (some "Ali") none none none none none).length = 1 ∧
    count (Store.mk [cexListUser]) none
      (some "Ali") none none none none none = 0 := by
  exact ⟨rfl, rfl⟩

/-- Claim C7 (amended): when the first-name, last-name, email and role
filters are absent and no free-text search is given, count returns
exactly the number of records that list returns without skip / limit
truncation: the status and registration-date filters have the same
semantics in both operations.  The name, email and role filters diverge:
list matches by substring where count requires exact equality. -/
theorem claim_C7_count_matches_list
    (st : Store) (stt : Option String) (rd : Option Nat) (limit : Nat)
    (hlim : st.users.length ≤ limit) :
    count st none none none none none stt rd =
      (list_users st 0 limit none none none none stt rd).length := by
  unfold count list_users
  have hpred : countPred none none none none none stt rd =
      listPred none none none none stt rd := by
    funext a
    rfl
  rw [hpred, List.drop_zero,
    List.take_of_length_le (le_trans (List.length_filter_le _ _) hlim)]

/-- Counter invariant: the failed-login counter stays within the
configured maximum N, and strictly below N while the account is
unlocked. -/
def CounterInv (N : Nat) (u : User) : Prop :=
  u.failed_login_attempts ≤ N ∧
  (u.is_locked = false → u.failed_login_attempts < N)

/-- Overwriting one row with a record satisfying the invariant keeps the
invariant for the whole store. -/
theorem setUser_inv (N : Nat) (st : Store) (u' : User)
    (hst : ∀ w ∈ st.users, CounterInv N w) (hu' : CounterInv N u') :
    ∀ w ∈ (st.setUser u').users, CounterInv N w := by
  intro w hw
  obtain ⟨v, hv, hvw⟩ := List.mem_map.mp hw
  by_cases hb : (v.id == u'.id) = true
  · rw [if_pos hb] at hvw
    rw [← hvw]
    exact hu'
  · rw [if_neg hb] at hvw
    rw [← hvw]
    exact hst v hv

/-- Login with an email that fails input validation: no session, store
unchanged. -/
theorem login_invalid (N now : Nat) (st : Store) (e p : String)
    (hval : ¬ validEmail e = true) :
    login_user N now st e p = (none, st) := by
  rw [login_user, if_neg hval]

/-- Login with an unknown email: no session, store unchanged. -/
theorem login_unknown (N now : Nat) (st : Store) (e p : String)
    (hge : get_by_email st e = none) :
    login_user N now st e p = (none, st) := by
  rw [login_user, hge]
  split_ifs <;> rfl

/-- Login on an unverified account: no session, store unchanged. -/
theorem login_unverified (N now : Nat) (st : Store) (e p : String) (u : User)
    (hge : get_by_email st e = some u) (hver : u.email_verified = false) :
    login_user N now st e p = (none, st) := by
  rw [login_user, hge]
  simp [hver]

/-- Login on a locked account: no session, store unchanged. -/
theorem login_locked (N now : Nat) (st : Store) (e p : String) (u : User)
    (hge : get_by_email st e = some u) (hver : u.email_verified = true)
    (hlock : u.is_locked = true) :
    login_user N now st e p = (none, st) := by
  rw [login_user, hge]
  simp [hver, hlock]

/-- The store after `login_user` is either unchanged or has one row
overwritten: on success with a zeroed counter, on a wrong password with
the counter incremented and the lock set once the counter reaches N,
starting from an unlocked row. -/
theorem login_user_store_cases (N now : Nat) (st : Store) (e p : String) :
    (login_user N now st e p).2 = st ∨
    ∃ u, get_by_email st e = some u ∧ u.is_locked = false ∧
      ((login_user N now st e p).2 =
        st.setUser { u with failed_login_attempts := 0, last_login_at := some now } ∨
       (login_user N now st e p).2 =
        st.setUser { u with
          failed_login_attempts := u.failed_login_attempts + 1,
          is_locked := if N ≤ u.failed_login_attempts + 1 then true
            else u.is_locked }) := by
  by_cases hval : validEmail e = true
  · cases hge : get_by_email st e with
    | none =>
      left
      rw [login_unknown N now st e p hge]
    | some u =>
      by_cases hver : u.email_verified = false
      · left
        rw [login_unverified N now st e p u hge hver]
      · have hver' : u.email_verified = true := by simpa using hver
        by_cases hlock : u.is_locked = true
        · left
          rw [login_locked N now st e p u hge hver' hlock]
        · have hlock' : u.is_locked = false := by simpa using hlock
          by_cases hpw : verify_password p u.hashed_password = true
          · right
            refine ⟨u, rfl, hlock', Or.inl ?_⟩
            rw [login_right_password N now st e p u hval hge hver' hlock' hpw]
          · right
            refine ⟨u, rfl, hlock', Or.inr ?_⟩
            rw [login_wrong_password N now st e p u hval hge hver' hlock'
              (by simpa using hpw)]
  · left
    rw [login_invalid N now st e p hval]

/-- The store after `reset_password` is either unchanged or has one row
overwritten with a zeroed counter and cleared lock. -/
theorem reset_password_store_cases (st : Store) (i : Nat) (pw : String) :
    (reset_password st i pw).2 = st ∨
    ∃ u : User, (reset_password st i pw).2 = st.setUser { u with
      hashed_password := hash_password pw,
      failed_login_attempts := 0, is_locked := false } := by
  unfold reset_password
  cases hge : get_by_id st i with
  | none =>
    left
    rfl
  | some u =>
    right
    exact ⟨u, rfl⟩

/-- The store after `verify_email_with_token` is either unchanged or has
one row overwritten without touching counter or lock. -/
theorem verify_email_store_cases (st : Store) (i : Nat) (t : String) :
    (verify_email_with_token st i t).2 = st ∨
    ∃ u, get_by_id st i = some u ∧
      (verify_email_with_token st i t).2 = st.setUser { u with
        email_verified := true, verification_token := none,
        role := UserRole.AUTHENTICATED } := by
  unfold verify_email_with_token
  cases hge : get_by_id st i with
  | none =>
    left
    rfl
  | some u =>
    by_cases htok : (u.verification_token == some t) = true
    · right
      refine ⟨u, rfl, ?_⟩
      simp [htok]
    · left
      simp [htok]

/-- The store after `unlock_user_account` is either unchanged or has one
row overwritten with a zeroed counter and cleared lock. -/
theorem unlock_store_cases (st : Store) (i : Nat) :
    (unlock_user_account st i).2 = st ∨
    ∃ u : User, (unlock_user_account st i).2 = st.setUser { u with
      is_locked := false, failed_login_attempts := 0 } := by
  unfold unlock_user_account
  cases hge : get_by_id st i with
  | none =>
    left
    rfl
  | some u =>
    by_cases hl : u.is_locked = true
    · right
      refine ⟨u, ?_⟩
      simp [hl]
    · left
      simp [hl]

/-- Every single operation preserves the counter invariant, for N ≥ 1. -/
theorem applyOp_inv (N : Nat) (hN : 1 ≤ N) (st : Store) (op : Op)
    (hst : ∀ w ∈ st.users, CounterInv N w) :
    ∀ w ∈ (applyOp N st op).users, CounterInv N w := by
  cases op with
  | login e p now =>
    show ∀ w ∈ (login_user N now st e p).2.users, CounterInv N w
    rcases login_user_store_cases N now st e p with heq | ⟨u, hge, hlock, heq | heq⟩
    · rw [heq]
      exact hst
    · rw [heq]
      refine setUser_inv N st _ hst ⟨Nat.zero_le N, fun _ => hN⟩
    · rw [heq]
      have hmem : u ∈ st.users := List.mem_of_find?_eq_some hge
      have hinv := hst u hmem
      have hlt : u.failed_login_attempts < N := hinv.2 hlock
      refine setUser_inv N st _ hst ⟨?_, ?_⟩
      · show u.failed_login_attempts + 1 ≤ N
        omega
      · show (if N ≤ u.failed_login_attempts + 1 then true else u.is_locked) = false →
          u.failed_login_attempts + 1 < N
        intro hfl
        by_cases hc : N ≤ u.failed_login_attempts + 1
        · rw [if_pos hc] at hfl
          exact absurd hfl (by simp)
        · omega
  | resetPassword i pw =>
    show ∀ w ∈ (reset_password st i pw).2.users, CounterInv N w
    rcases reset_password_store_cases st i pw with heq | ⟨u, heq⟩
    · rw [heq]
      exact hst
    · rw [heq]
      exact setUser_inv N st _ hst ⟨Nat.zero_le N, fun _ => hN⟩
  | verifyEmail i t =>
    show ∀ w ∈ (verify_email_with_token st i t).2.users, CounterInv N w
    rcases verify_email_store_cases st i t with heq | ⟨u, hge, heq⟩
    · rw [heq]
      exact hst
    · rw [heq]
      have hinv := hst u (List.mem_of_find?_eq_some hge)
      exact setUser_inv N st _ hst ⟨hinv.1, hinv.2⟩
  | unlock i =>
    show ∀ w ∈ (unlock_user_account st i).2.users, CounterInv N w
    rcases unlock_store_cases st i with heq | ⟨u, heq⟩
    · rw [heq]
      exact hst
    · rw [heq]
      exact setUser_inv N st _ hst ⟨Nat.zero_le N, fun _ => hN⟩

/-- Every sequence of operations preserves the counter invariant. -/
theorem applyOps_inv (N : Nat) (hN : 1 ≤ N) (ops : List Op) (st : Store)
    (hst : ∀ w ∈ st.users, CounterInv N w) :
    ∀ w ∈ (applyOps N st ops).users, CounterInv N w := by
  induction ops generalizing st with
  | nil => exact hst
  | cons op ops ih => exact ih (applyOp N st op) (applyOp_inv N hN st op hst)

/-- Claim C8: starting from a store whose accounts all have failed-login
counter zero, no sequence of login, resetPassword, verifyEmail and
unlock operations can drive any counter beyond the configured maximum N,
for N ≥ 1. -/
theorem claim_C8_counter_bounded (N : Nat) (hN : 1 ≤ N) (st : Store)
    (hst : ∀ w ∈ st.users, w.failed_login_attempts = 0) (ops : List Op) :
    ∀ w ∈ (applyOps N st ops).users, w.failed_login_attempts ≤ N := by
  have hinv : ∀ w ∈ st.users, CounterInv N w := by
    intro w hw
    refine ⟨?_, fun _ => ?_⟩
    · rw [hst w hw]
      exact Nat.zero_le N
    · rw [hst w hw]
      omega
  intro w hw
  exact (applyOps_inv N hN ops st hinv w hw).1

/-- Each nibble renders to a character of the hexadecimal alphabet. -/
theorem hexDigit_mem (n : Nat) : hexDigit n ∈ hexDigitsList := by
  have h : n % 16 < 16 := Nat.mod_lt _ (by decide)
  have hall : ∀ j < 16, hexDigitsList.getD j '0' ∈ hexDigitsList := by decide
  exact hall _ h

/-- The adjective pool is closed under selection by index modulo 5. -/
theorem adjective_mem (a : Nat) : adjectives.getD (a % 5) "" ∈ adjectives := by
  have h : a % 5 < 5 := Nat.mod_lt _ (by decide)
  have hall : ∀ j < 5, adjectives.getD j "" ∈ adjectives := by decide
  exact hall _ h

/-- The animal pool is closed under selection by index modulo 5. -/
theorem animal_mem (b : Nat) : animals.getD (b % 5) "" ∈ animals := by
  have h : b % 5 < 5 := Nat.mod_lt _ (by decide)
  have hall : ∀ j < 5, animals.getD j "" ∈ animals := by decide
  exact hall _ h

/-- Claim C10: for every outcome of the random choices, the generated
nickname is an adjective from the fixed pool, an underscore, an animal
from the fixed pool, an underscore, and a suffix of exactly six
lowercase hexadecimal characters; in particular it is never empty. -/
theorem claim_C10_nickname_shape (a b u : Nat) :
    ∃ adj anim suffix, adj ∈ adjectives ∧ anim ∈ animals ∧
      generate_nickname a b u = adj ++ "_" ++ anim ++ "_" ++ suffix ∧
      suffix.length = 6 ∧ (∀ c ∈ suffix.data, c ∈ hexDigitsList) ∧
      generate_nickname a b u ≠ "" := by
  refine ⟨adjectives.getD (a % 5) "", animals.getD (b % 5) "",
    String.mk ((uuid4Hex u).take 6), adjective_mem a, animal_mem b, rfl,
    ?_, ?_, ?_⟩
  · show ((uuid4Hex u).take 6).length = 6
    rw [List.length_take]
    simp [uuid4Hex]
  · intro c hc
    have hc2 : c ∈ uuid4Hex u := List.take_subset 6 _ hc
    rw [uuid4Hex] at hc2
    obtain ⟨j, _, hj⟩ := List.mem_map.mp hc2
    rw [← hj]
    exact hexDigit_mem _
  · intro hcontra
    have hlen := congrArg String.length hcontra
    simp only [generate_nickname, String.length_append] at hlen
    have h1 : ("_" : String).length = 1 := rfl
    have h0 : ("" : String).length = 0 := rfl
    omega

/-- Verified, unlocked account used by the concrete witnesses. -/
def wUserA : User :=
  { id := 1, email := "ann@example.com", nickname := "wa",
    hashed_password := hash_password "pw1", role := .AUTHENTICATED,
    email_verified := true, verification_token := none,
    failed_login_attempts := 0, is_locked := false,
    first_name := none, last_name := none, status := "",
    registration_date := 0, last_login_at := none }

/-- Store holding the witness account. -/
def wStore : Store := Store.mk [wUserA]

/-- Concrete instantiation of claim C1 at N = 2: a wrong password on the
fresh witness account yields no session. -/
theorem claim_C1_witness :
    (login_user 2 5 wStore "ann@example.com" "bad").1 = none := by
  have h := claim_C1_login_counter_and_lock 2 5 wStore "ann@example.com" "bad"
    wUserA (by decide) (by decide) (by decide) (by decide) (by decide)
  exact (h.1 (by decide)).1

/-- The record created by the first-ever registration in the witness
run. -/
def wAdmin : User :=
  { mkNewUser 1 "ann@example.com" (hash_password "pw1") "nick" with
    role := .ADMIN, email_verified := true }

/-- Concrete instantiation of claim C2 on the empty store. -/
theorem claim_C2_witness :
    wAdmin.role = UserRole.ADMIN ∧ wAdmin.email_verified = true ∧
    wAdmin.verification_token = none := by
  have h := claim_C2_create_first_admin (Store.mk []) 1 "ann@example.com"
    "pw1" "nick" 0 wAdmin (by decide)
  exact h.1 rfl

/-- Locked account for the C4 witness. -/
def wLocked : User :=
  { wUserA with id := 3, email := "carl@example.com", is_locked := true }

/-- Concrete instantiation of claim C4: even the correct password is
rejected on the locked account. -/
theorem claim_C4_witness :
    (login_user 2 0 (Store.mk [wLocked]) "carl@example.com" "pw1").1 = none := by
  have h := claim_C4_login_locked_or_unverified 2 0 (Store.mk [wLocked])
    "carl@example.com" "pw1" wLocked (by decide) (Or.inl (by decide))
  exact h

/-- Concrete instantiation of the amended claim C5 on the verified
witness account: after the reset, login with the new password succeeds. -/
theorem claim_C5_witness :
    ∃ w, (login_user 2 7 (reset_password wStore 1 "fresh").2
      "ann@example.com" "fresh").1 = some w := by
  have h := claim_C5_reset_password 2 7 wStore 1 "fresh" wUserA
    (by decide) (by decide) (by decide)
  exact h.2.2 (by decide) (by decide)

/-- Concrete instantiation of claim C6: re-registering the witness email
fails and leaves the store unchanged. -/
theorem claim_C6_witness :
    create wStore 9 "ann@example.com" "x" "nn" 4 = (none, wStore) := by
  have h := claim_C6_create_duplicate_email wStore 9 "ann@example.com" "x" "nn" 4
    ⟨wUserA, by decide, by decide⟩
  exact h

/-- Concrete instantiation of the amended claim C7 on the witness
store. -/
theorem claim_C7_witness :
    count wStore none none none none none none none =
      (list_users wStore 0 1 none none none none none none).length := by
  have h := claim_C7_count_matches_list wStore none none 1 (by decide)
  exact h

/-- Three wrong-password logins against the witness account. -/
def wOps : List Op :=
  [Op.login "ann@example.com" "bad" 0, Op.login "ann@example.com" "bad" 1,
   Op.login "ann@example.com" "bad" 2]

/-- The witness account after the three attempts at N = 2: counter 2,
locked. -/
def wAfter : User :=
  { wUserA with failed_login_attempts := 2, is_locked := true }

/-- Concrete instantiation of claim C8 at N = 2: after three consecutive
wrong passwords the counter sits at 2 and never exceeds the maximum. -/
theorem claim_C8_witness :
    wAfter.failed_login_attempts ≤ 2 := by
  have h := claim_C8_counter_bounded 2 (by decide) wStore (by decide) wOps
  exact h wAfter (by decide)

/-- Concrete instantiation of claim C9: a login with an unknown email
changes nothing. -/
theorem claim_C9_witness :
    login_user 2 0 wStore "zoe@example.com" "pw1" = (none, wStore) := by
  have h := claim_C9_login_failure_no_mutation 2 0 wStore "zoe@example.com" "pw1"
    (Or.inl (by decide))
  exact h
